import Mathlib

/-!
Shallow embedding of the mcp-shopify tool-invocation pipeline.

The definitions below are translated from the repository's TypeScript
sources: the shared utilities (`src/utils/formatters.ts`,
`src/utils/error-handler.ts`), the tool units (`createCustomer`,
`create-order`, `adjust-inventory`, `get-product-by-id`,
`createOrder`, `createCollection`) and the MCP registration code in
`index.ts` / `index-updated.ts`.  JavaScript dynamic values are
modelled with the `JSVal` inductive (including `undefined` and
`null`), thrown errors with `Except String`, and JavaScript
truthiness is made explicit at each guard.
-/

namespace Shopify

/-- A JavaScript value as it appears in mutation variables and
response payloads: `undef` models `undefined`, `null` models `null`. -/
inductive JSVal where
  | undef : JSVal
  | null : JSVal
  | str : String → JSVal
  | num : Int → JSVal
  | bool : Bool → JSVal
  | arr : List JSVal → JSVal
  | obj : List (String × JSVal) → JSVal

/-- JavaScript `String.prototype.startsWith`, modelled as character-list
prefix. -/
def jsStartsWith (s pre : String) : Bool :=
  pre.toList.isPrefixOf s.toList

/-- Does `pat` lead the character list? (Boolean, structural.) -/
def leadMatch : List Char → List Char → Bool
  | [], _ => true
  | _ :: _, [] => false
  | c :: cs, d :: ds => c == d && leadMatch cs ds

/-- Does `pat` occur contiguously inside the character list? -/
def subMatch (pat : List Char) : List Char → Bool
  | [] => leadMatch pat []
  | d :: ds => leadMatch pat (d :: ds) || subMatch pat ds

/-- JavaScript `String.prototype.includes`, modelled over character
lists. -/
def jsIncludes (s pat : String) : Bool :=
  subMatch pat.toList s.toList

/-- `formatGid` from `src/utils/formatters.ts`: if the id already starts
with `gid://` return it unchanged, otherwise build
`gid://shopify/<type>/<id>`. -/
def formatGid (type id : String) : String :=
  if jsStartsWith id "gid://" then id
  else "gid://shopify/" ++ type ++ "/" ++ id

/-- `extractIdFromGid` from `src/utils/formatters.ts`: the substring
after the last `/` (JS `split("/")` then last element). -/
def extractIdFromGid (gid : String) : String :=
  match (gid.splitOn "/").getLast? with
  | some part => part
  | none => ""

/-- One edge of a paginated GraphQL connection. -/
structure Edge (α : Type) where
  node : α
deriving Repr, DecidableEq

/-- `mapEdgesToNodes` from `src/utils/formatters.ts`:
`edges.map(edge => edge.node)`. -/
def mapEdgesToNodes {α : Type} (edges : List (Edge α)) : List α :=
  edges.map (fun e => e.node)

/-- A connection value as the callers see it: the `edges` field may be
absent (`none` models a missing/undefined `edges` key). -/
structure Connection (α : Type) where
  edges : Option (List (Edge α))
deriving Repr, DecidableEq

/-- Unwrapping a connection as the tool units do it
(`mapEdgesToNodes(x.edges)`, e.g. `formatProductDetails` in
`get-product-by-id.ts`): when `edges` is absent the JavaScript call
`undefined.map` throws a `TypeError`. -/
def unwrapConnection {α : Type} (c : Connection α) : Except String (List α) :=
  match c.edges with
  | some es => Except.ok (mapEdgesToNodes es)
  | none => Except.error "TypeError: Cannot read properties of undefined (reading map)"

/-- A `{field, message}` user error as in `src/utils/error-handler.ts`. -/
structure UserError where
  field : String
  message : String
deriving Repr, DecidableEq

/-- `handleGraphQLErrors` from `src/utils/error-handler.ts`: on a
non-empty list, throw (`Except.error`) the message
`Failed to <operation>: ` followed by the rendered errors joined by
`", "`; an error renders as `field: message` when its `field` is
truthy (non-empty) and as just `message` otherwise. -/
def handleGraphQLErrors (userErrors : List UserError) (operation : String) :
    Except String Unit :=
  if userErrors.length > 0 then
    Except.error ("Failed to " ++ operation ++ ": " ++
      String.intercalate ", "
        (userErrors.map (fun e =>
          if e.field = "" then e.message else e.field ++ ": " ++ e.message)))
  else
    Except.ok ()

/-- A JavaScript throwable as seen by a `catch` block: either an
`Error` carrying a message, or any other value whose `String(e)`
rendering is recorded. -/
inductive JsError where
  | error : String → JsError
  | nonError : String → JsError
deriving Repr, DecidableEq

/-- `handleExecutionError` from `src/utils/error-handler.ts`: rethrow as
`Failed to <operation>: <message>` where the message is `e.message`
for an `Error` and `String(e)` otherwise. -/
def handleExecutionError (e : JsError) (operation : String) : String :=
  "Failed to " ++ operation ++ ": " ++
    (match e with
     | JsError.error m => m
     | JsError.nonError s => s)

/-- The `catch` block of `createOrder.execute` in
`src/tools/createOrder.ts` (lines 295-310): messages containing
`"variant"` or `"customer"` are replaced by fixed hints; other `Error`
messages are wrapped verbatim; non-`Error` values become
`Unknown error occurred`. -/
def createOrderCatch (e : JsError) : String :=
  match e with
  | JsError.error m =>
    if jsIncludes m "variant" then
      "Failed to create order: Invalid product variant. Please check that all variant IDs are correct."
    else if jsIncludes m "customer" then
      "Failed to create order: Invalid customer ID. Please check the customer ID format."
    else
      "Failed to create order: " ++ m
  | JsError.nonError _ => "Failed to create order: Unknown error occurred"

/-- JavaScript falsiness of a value (`!v`). -/
def jsFalsy : JSVal → Bool
  | JSVal.undef => true
  | JSVal.null => true
  | JSVal.bool b => !b
  | JSVal.num n => n == 0
  | JSVal.str s => s == ""
  | JSVal.arr _ => false
  | JSVal.obj _ => false

/-- JavaScript property read `v.k`: an absent key on an object yields
`undefined`; reading a property of `null`/`undefined` throws a
`TypeError`; a property of any other primitive is `undefined`. -/
def jsGetE (k : String) (v : JSVal) : Except String JSVal :=
  match v with
  | JSVal.obj fs =>
    Except.ok (match fs.lookup k with
      | some x => x
      | none => JSVal.undef)
  | JSVal.null =>
    Except.error ("TypeError: Cannot read properties of null (reading " ++ k ++ ")")
  | JSVal.undef =>
    Except.error ("TypeError: Cannot read properties of undefined (reading " ++ k ++ ")")
  | _ => Except.ok JSVal.undef

/-- `edges.map(edge => edge.node)` on a dynamic (`any`-typed) value:
only an actual array maps; `null`/`undefined` throw. -/
def jsMapNodes (v : JSVal) : Except String (List JSVal) :=
  match v with
  | JSVal.arr xs => xs.mapM (jsGetE "node")
  | JSVal.null => Except.error "TypeError: Cannot read properties of null (reading map)"
  | JSVal.undef => Except.error "TypeError: Cannot read properties of undefined (reading map)"
  | _ => Except.error "TypeError: edges.map is not a function"

/-- The object-literal projections `v => ({k1: v.k1, ...})` used by the
response shapers. -/
def jsPickE (ks : List String) (v : JSVal) : Except String JSVal := do
  let pairs ← ks.mapM (fun k => do
    let x ← jsGetE k v
    pure (k, x))
  pure (JSVal.obj pairs)

/-- The `conn?.edges?.map((e) => e.node) || []` pattern of
`createCustomer` (`src/tools/customers/create-customer.ts`): a
missing connection or missing `edges` yields `[]`. -/
def jsOptNodes (conn : JSVal) : Except String JSVal :=
  match conn with
  | JSVal.null => Except.ok (JSVal.arr [])
  | JSVal.undef => Except.ok (JSVal.arr [])
  | _ => do
    let edges ← jsGetE "edges" conn
    match edges with
    | JSVal.null => pure (JSVal.arr [])
    | JSVal.undef => pure (JSVal.arr [])
    | JSVal.arr xs => do
      let nodes ← xs.mapM (jsGetE "node")
      pure (JSVal.arr nodes)
    | _ => Except.error "TypeError: edges.map is not a function"

/-- `formatProductDetails` from `get-product-by-id.ts` (lines 43-115):
an explicit falsiness check raises `Product not found` before any
payload access; otherwise the four paginated sub-fields are unwrapped
and the flattened product object is built. -/
def formatProductDetails (product : JSVal) : Except String JSVal := do
  if jsFalsy product then
    throw "Product not found"
  else
    let variants ← jsGetE "variants" product >>= jsGetE "edges" >>= jsMapNodes
    let images ← jsGetE "images" product >>= jsGetE "edges" >>= jsMapNodes
    let metafields ← jsGetE "metafields" product >>= jsGetE "edges" >>= jsMapNodes
    let collections ← jsGetE "collections" product >>= jsGetE "edges" >>= jsMapNodes
    let idv ← jsGetE "id" product
    let titlev ← jsGetE "title" product
    let descriptionv ← jsGetE "description" product
    let descriptionHtmlv ← jsGetE "descriptionHtml" product
    let handlev ← jsGetE "handle" product
    let statusv ← jsGetE "status" product
    let vendorv ← jsGetE "vendor" product
    let productTypev ← jsGetE "productType" product
    let tagsv ← jsGetE "tags" product
    let createdAtv ← jsGetE "createdAt" product
    let updatedAtv ← jsGetE "updatedAt" product
    let totalInventoryv ← jsGetE "totalInventory" product
    let priceRangeV2 ← jsGetE "priceRangeV2" product
    let minP ← jsGetE "minVariantPrice" priceRangeV2 >>= jsPickE ["amount", "currencyCode"]
    let maxP ← jsGetE "maxVariantPrice" priceRangeV2 >>= jsPickE ["amount", "currencyCode"]
    let optionsv ← jsGetE "options" product
    let variantsOut ← variants.mapM (jsPickE
      ["id", "title", "price", "sku", "weight", "weightUnit",
       "inventoryQuantity", "inventoryPolicy", "inventoryManagement",
       "requiresShipping", "taxable", "barcode", "selectedOptions"])
    let imagesOut ← images.mapM (jsPickE ["id", "src", "altText", "width", "height"])
    let seov ← jsGetE "seo" product
    let metafieldsOut ← metafields.mapM (jsPickE ["id", "namespace", "key", "value", "type"])
    let collectionsOut ← collections.mapM (jsPickE ["id", "title", "handle"])
    pure (JSVal.obj [("product", JSVal.obj
      [("id", idv), ("title", titlev), ("description", descriptionv),
       ("descriptionHtml", descriptionHtmlv), ("handle", handlev),
       ("status", statusv), ("vendor", vendorv), ("productType", productTypev),
       ("tags", tagsv), ("createdAt", createdAtv), ("updatedAt", updatedAtv),
       ("totalInventory", totalInventoryv),
       ("priceRange", JSVal.obj [("minPrice", minP), ("maxPrice", maxP)]),
       ("options", optionsv), ("variants", JSVal.arr variantsOut),
       ("images", JSVal.arr imagesOut), ("seo", seov),
       ("metafields", JSVal.arr metafieldsOut),
       ("collections", JSVal.arr collectionsOut)])])

/-- `getProductById.execute` after the transport call: reads
`data.product`, shapes it with `formatProductDetails`, and wraps any
thrown error via `handleExecutionError` with the label
`fetch product details`. -/
def getProductByIdProcess (data : JSVal) : Except String JSVal :=
  match jsGetE "product" data >>= formatProductDetails with
  | Except.ok out => Except.ok out
  | Except.error m =>
    Except.error (handleExecutionError (JsError.error m) "fetch product details")

/-- The message `handleGraphQLErrors` raises for a given error list. -/
def aggregatedBusinessMessage (es : List UserError) (L : String) : String :=
  "Failed to " ++ L ++ ": " ++
    String.intercalate ", "
      (es.map (fun e => if e.field = "" then e.message else e.field ++ ": " ++ e.message))

/-- The decoded `customerCreate` mutation payload: the business-error
list plus the `customer` node (which is `null` when the mutation was
rejected). -/
structure CustomerCreateResponse where
  userErrors : List UserError
  customer : JSVal

/-- The flattening of the returned customer in
`createCustomer.execute` (field reads in source order; `addresses`
and `metafields` use the tolerant `?.edges?.map || []` chain). -/
def shapeCustomer (customer : JSVal) : Except String JSVal := do
  let idv ← jsGetE "id" customer
  let displayNamev ← jsGetE "displayName" customer
  let emailv ← jsGetE "email" customer
  let firstNamev ← jsGetE "firstName" customer
  let lastNamev ← jsGetE "lastName" customer
  let phonev ← jsGetE "phone" customer
  let acceptsMarketingv ← jsGetE "acceptsMarketing" customer
  let statev ← jsGetE "state" customer
  let numberOfOrdersv ← jsGetE "numberOfOrders" customer
  let createdAtv ← jsGetE "createdAt" customer
  let updatedAtv ← jsGetE "updatedAt" customer
  let defaultAddressv ← jsGetE "defaultAddress" customer
  let addrConn ← jsGetE "addresses" customer
  let addressesv ← jsOptNodes addrConn
  let mfConn ← jsGetE "metafields" customer
  let metafieldsv ← jsOptNodes mfConn
  pure (JSVal.obj [("customer", JSVal.obj
    [("id", idv), ("displayName", displayNamev), ("email", emailv),
     ("firstName", firstNamev), ("lastName", lastNamev), ("phone", phonev),
     ("acceptsMarketing", acceptsMarketingv), ("state", statev),
     ("numberOfOrders", numberOfOrdersv), ("createdAt", createdAtv),
     ("updatedAt", updatedAtv), ("defaultAddress", defaultAddressv),
     ("addresses", addressesv), ("metafields", metafieldsv)])])

/-- `createCustomer.execute` after the transport call: run the error
reshaper on `userErrors` first, then shape the customer; any thrown
error is rewrapped by `handleExecutionError` with the label
`create customer`. -/
def createCustomerProcess (resp : CustomerCreateResponse) : Except String JSVal :=
  match (do
      handleGraphQLErrors resp.userErrors "create customer"
      shapeCustomer resp.customer) with
  | Except.ok v => Except.ok v
  | Except.error m =>
    Except.error (handleExecutionError (JsError.error m) "create customer")

/-- One `{name, quantity}` entry of the inventory-level `quantities`
list requested by the adjust-inventory mutation. -/
structure QuantityEntry where
  name : String
  quantity : Int
deriving Repr, DecidableEq

/-- The `item` sub-object of the returned inventory level. -/
structure InventoryItemData where
  id : JSVal
  sku : JSVal
  tracked : JSVal

/-- The `location` sub-object of the returned inventory level. -/
structure LocationData where
  id : JSVal
  name : JSVal

/-- The `inventoryLevel` node of the `inventoryAdjustQuantity`
payload. -/
structure InventoryLevelData where
  id : JSVal
  quantities : List QuantityEntry
  item : InventoryItemData
  location : LocationData

/-- The decoded `inventoryAdjustQuantity` payload. -/
structure AdjustInventoryResponse where
  userErrors : List UserError
  inventoryLevel : Option InventoryLevelData

/-- The flattening in `adjustInventory.execute`
(`src/tools/inventory/adjust-inventory.ts` lines 65-85):
`quantities.reduce` turns the name/quantity pairs into object
entries, spread between `id` and `item`/`location`; a `null` level
fails at `level.quantities`. -/
def shapeInventoryLevel : Option InventoryLevelData → Except String JSVal
  | none => Except.error "TypeError: Cannot read properties of null (reading quantities)"
  | some lvl => Except.ok (JSVal.obj [("inventoryLevel", JSVal.obj (
      [("id", lvl.id)] ++
      lvl.quantities.map (fun q => (q.name, JSVal.num q.quantity)) ++
      [("item", JSVal.obj
          [("id", lvl.item.id), ("sku", lvl.item.sku), ("tracked", lvl.item.tracked)]),
       ("location", JSVal.obj
          [("id", lvl.location.id), ("name", lvl.location.name)])]))])

/-- `adjustInventory.execute` after the transport call: the error
reshaper runs on `userErrors` before the level is flattened; any
thrown error is rewrapped with the label `adjust inventory`. -/
def adjustInventoryProcess (resp : AdjustInventoryResponse) : Except String JSVal :=
  match (do
      handleGraphQLErrors resp.userErrors "adjust inventory"
      shapeInventoryLevel resp.inventoryLevel) with
  | Except.ok v => Except.ok v
  | Except.error m =>
    Except.error (handleExecutionError (JsError.error m) "adjust inventory")

/-- Is a value JavaScript `undefined`? -/
def isUndef : JSVal → Bool
  | JSVal.undef => true
  | _ => false

mutual

/-- `JSON.stringify` semantics on a value: object entries bound to
`undefined` are dropped; `undefined` inside an array serialises as
`null`. -/
def stripUndef : JSVal → JSVal
  | JSVal.obj fs => JSVal.obj (stripFields fs)
  | JSVal.arr xs => JSVal.arr (stripArr xs)
  | v => v

/-- `JSON.stringify` semantics on object fields. -/
def stripFields : List (String × JSVal) → List (String × JSVal)
  | [] => []
  | (k, v) :: rest =>
    if isUndef v then stripFields rest
    else (k, stripUndef v) :: stripFields rest

/-- `JSON.stringify` semantics on array elements. -/
def stripArr : List JSVal → List JSVal
  | [] => []
  | v :: rest =>
    (if isUndef v then JSVal.null else stripUndef v) :: stripArr rest

end

/-- A conditional object entry guarded by JavaScript string
truthiness: `if (input.k) out.k = enc(input.k)` adds the key only for
a present, non-empty string. -/
def strEntryWith (k : String) (enc : String → JSVal) : Option String → List (String × JSVal)
  | some s => if s = "" then [] else [(k, enc s)]
  | none => []

/-- `strEntryWith` with the identity string encoding. -/
def strEntry (k : String) : Option String → List (String × JSVal) :=
  strEntryWith k JSVal.str

/-- A conditional object entry guarded by presence
(`!== undefined`, or truthiness of an always-truthy object/array
value): the key is added exactly when the field was supplied. -/
def definedEntry {α : Type} (k : String) (enc : α → JSVal) : Option α → List (String × JSVal)
  | some x => [(k, enc x)]
  | none => []

/-- A zod-parsed optional string sub-field of a nested object: the key
is present iff the caller supplied it. -/
def optStrField (k : String) : Option String → List (String × JSVal)
  | some s => [(k, JSVal.str s)]
  | none => []

/-- An address as accepted by the createCustomer schema. -/
structure AddressInput where
  address1 : Option String
  address2 : Option String
  city : Option String
  province : Option String
  country : Option String
  zip : Option String
  phone : Option String

/-- The zod-parsed JavaScript object for an address (omitted keys
absent). -/
def encodeAddress (a : AddressInput) : JSVal :=
  JSVal.obj (optStrField "address1" a.address1 ++ optStrField "address2" a.address2 ++
    optStrField "city" a.city ++ optStrField "province" a.province ++
    optStrField "country" a.country ++ optStrField "zip" a.zip ++
    optStrField "phone" a.phone)

/-- A metafield input `{namespace, key, value, type}` (`nsp`/`mtype`
stand for the `namespace`/`type` keys, which are Lean keywords). -/
structure MetafieldInput where
  nsp : String
  key : String
  value : String
  mtype : String

/-- The zod-parsed JavaScript object for a metafield. -/
def encodeMetafield (m : MetafieldInput) : JSVal :=
  JSVal.obj [("namespace", JSVal.str m.nsp), ("key", JSVal.str m.key),
    ("value", JSVal.str m.value), ("type", JSVal.str m.mtype)]

/-- The validated createCustomer input
(`src/tools/customers/create-customer.ts` schema). -/
structure CreateCustomerInput where
  email : String
  firstName : Option String
  lastName : Option String
  phone : Option String
  acceptsMarketing : Option Bool
  addresses : Option (List AddressInput)
  metafields : Option (List MetafieldInput)
  tags : Option (List String)

/-- The `customerInput` object built by `createCustomer.execute`
(lines 66-78): `email` always; each string field under a truthiness
guard; `acceptsMarketing` under an explicit `!== undefined` check;
`addresses`/`metafields`/`tags` under (always-truthy-object)
presence. -/
def buildCustomerInput (inp : CreateCustomerInput) : List (String × JSVal) :=
  ("email", JSVal.str inp.email) ::
  (strEntry "firstName" inp.firstName ++
   strEntry "lastName" inp.lastName ++
   strEntry "phone" inp.phone ++
   definedEntry "acceptsMarketing" JSVal.bool inp.acceptsMarketing ++
   definedEntry "addresses" (fun xs => JSVal.arr (xs.map encodeAddress)) inp.addresses ++
   definedEntry "metafields" (fun xs => JSVal.arr (xs.map encodeMetafield)) inp.metafields ++
   definedEntry "tags" (fun xs => JSVal.arr (xs.map JSVal.str)) inp.tags)

/-- An address as accepted by the create-order schema (three more
optional sub-fields than the customer one). -/
structure OrderAddressInput where
  address1 : Option String
  address2 : Option String
  city : Option String
  province : Option String
  country : Option String
  zip : Option String
  phone : Option String
  firstName : Option String
  lastName : Option String
  company : Option String

/-- The zod-parsed JavaScript object for an order address. -/
def encodeOrderAddress (a : OrderAddressInput) : JSVal :=
  JSVal.obj (optStrField "address1" a.address1 ++ optStrField "address2" a.address2 ++
    optStrField "city" a.city ++ optStrField "province" a.province ++
    optStrField "country" a.country ++ optStrField "zip" a.zip ++
    optStrField "phone" a.phone ++ optStrField "firstName" a.firstName ++
    optStrField "lastName" a.lastName ++ optStrField "company" a.company)

/-- A `{key, value}` custom attribute. -/
structure CustomAttributeInput where
  key : String
  value : String

/-- The zod-parsed JavaScript object for a custom attribute. -/
def encodeCustomAttribute (c : CustomAttributeInput) : JSVal :=
  JSVal.obj [("key", JSVal.str c.key), ("value", JSVal.str c.value)]

/-- A shipping line `{title, price, code?}`. -/
structure ShippingLineInput where
  title : String
  price : String
  code : Option String

/-- The zod-parsed JavaScript object for a shipping line. -/
def encodeShippingLine (sl : ShippingLineInput) : JSVal :=
  JSVal.obj ([("title", JSVal.str sl.title), ("price", JSVal.str sl.price)] ++
    optStrField "code" sl.code)

/-- A validated order line item
(`src/tools/orders/create-order.ts` `LineItemSchema`). -/
structure OrderLineItemInput where
  variantId : String
  quantity : Int
  price : Option String
  customAttributes : Option (List CustomAttributeInput)

/-- The per-item object built inside `formatOrderInput`:
`{variantId: formatGid(...), quantity, customAttributes}` — note the
unconditional `customAttributes` read, which is `undefined` when the
caller omitted it. -/
def lineItemFields (item : OrderLineItemInput) : List (String × JSVal) :=
  [("variantId", JSVal.str (formatGid "ProductVariant" item.variantId)),
   ("quantity", JSVal.num item.quantity),
   ("customAttributes",
     match item.customAttributes with
     | some xs => JSVal.arr (xs.map encodeCustomAttribute)
     | none => JSVal.undef)]

/-- The validated create-order input
(`src/tools/orders/create-order.ts` `CreateOrderInputSchema`); the
two `send*` booleans carry zod defaults and are always present after
validation. -/
structure CreateOrderInput where
  customerId : Option String
  email : Option String
  phone : Option String
  note : Option String
  tags : Option (List String)
  lineItems : List OrderLineItemInput
  shippingAddress : Option OrderAddressInput
  billingAddress : Option OrderAddressInput
  shippingLine : Option ShippingLineInput
  financialStatus : Option String
  fulfillmentStatus : Option String
  sendReceipt : Bool
  sendFulfillmentReceipt : Bool
  metafields : Option (List MetafieldInput)

/-- `formatOrderInput` (`src/tools/orders/create-order.ts` lines
75-103): `lineItems` always; every optional field merged only under
its truthiness/presence guard; `customerId` qualified via
`formatGid`. -/
def formatOrderInput (inp : CreateOrderInput) : List (String × JSVal) :=
  ("lineItems", JSVal.arr (inp.lineItems.map (fun it => JSVal.obj (lineItemFields it)))) ::
  (strEntryWith "customerId" (fun s => JSVal.str (formatGid "Customer" s)) inp.customerId ++
   strEntry "email" inp.email ++
   strEntry "phone" inp.phone ++
   strEntry "note" inp.note ++
   definedEntry "tags" (fun xs => JSVal.arr (xs.map JSVal.str)) inp.tags ++
   definedEntry "shippingAddress" encodeOrderAddress inp.shippingAddress ++
   definedEntry "billingAddress" encodeOrderAddress inp.billingAddress ++
   definedEntry "shippingLine" encodeShippingLine inp.shippingLine ++
   strEntry "financialStatus" inp.financialStatus ++
   strEntry "fulfillmentStatus" inp.fulfillmentStatus ++
   [("sendReceipt", JSVal.bool inp.sendReceipt),
    ("sendFulfillmentReceipt", JSVal.bool inp.sendFulfillmentReceipt)] ++
   definedEntry "metafields" (fun xs => JSVal.arr (xs.map encodeMetafield)) inp.metafields)

/-- A line item as probed by the create-order entry-point validation
(`index.ts`): only `variantId` and `quantity` are inspected; any
non-object parse result is represented by its (absent) probed
properties. -/
structure RawLineItem where
  variantId : Option String
  quantity : Option Int
deriving Repr, DecidableEq

/-- The outcome of `JSON.parse` on a line-items string, as far as the
handler distinguishes it: an array of items or a single non-array
value. -/
inductive ParsedJson where
  | arr : List RawLineItem → ParsedJson
  | single : RawLineItem → ParsedJson
deriving Repr, DecidableEq

/-- The `lineItems` argument as received by the create-order handler:
a string, an array, or some other single value. -/
inductive LineItemsArg where
  | str : String → LineItemsArg
  | arr : List RawLineItem → LineItemsArg
  | other : RawLineItem → LineItemsArg
deriving Repr, DecidableEq

/-- The pre-processing in the `create-order` handler (`index.ts` lines
385-405), parameterised by the external `JSON.parse` (`Except.error`
carries the raw `SyntaxError` text): a string is parsed — a parse
failure becomes the fixed `Invalid lineItems format` error and a
non-array parse result is wrapped into a one-element array; a
non-string non-array argument fails the `Array.isArray` check. -/
def preprocessLineItems (parse : String → Except String ParsedJson) :
    LineItemsArg → Except String (List RawLineItem)
  | LineItemsArg.str s =>
    match parse s with
    | Except.error _ =>
      Except.error "Invalid lineItems format. Expected a valid JSON array."
    | Except.ok (ParsedJson.arr items) => Except.ok items
    | Except.ok (ParsedJson.single it) => Except.ok [it]
  | LineItemsArg.arr items => Except.ok items
  | LineItemsArg.other _ =>
    Except.error "lineItems must be an array of product variants with quantities"

/-- The per-item check in the handler's `forEach` (`index.ts` lines
408-415): a falsy `variantId` (absent or empty) and a falsy or
non-positive `quantity` each throw with the item's index. -/
def validateLineItem (idx : Nat) (item : RawLineItem) : Except String Unit :=
  if (match item.variantId with
      | some s => s == ""
      | none => true : Bool) then
    Except.error ("Line item at index " ++ toString idx ++ " is missing variantId")
  else
    match item.quantity with
    | none =>
      Except.error ("Line item at index " ++ toString idx ++
        " has invalid quantity. Must be a positive number.")
    | some q =>
      if q ≤ 0 then
        Except.error ("Line item at index " ++ toString idx ++
          " has invalid quantity. Must be a positive number.")
      else Except.ok ()

/-- The handler's indexed `forEach` over the processed line items. -/
def validateLineItems : Nat → List RawLineItem → Except String Unit
  | _, [] => Except.ok ()
  | idx, item :: rest => do
    validateLineItem idx item
    validateLineItems (idx + 1) rest

/-- The create-order handler's line-item phase up to the call of
`createOrder.execute`: pre-process, validate each item, and wrap any
thrown error as `Failed to create order: <message>` (the handler's
outer catch). On success the processed item list proceeds to variable
building. -/
def runLineItemsPhase (parse : String → Except String ParsedJson)
    (arg : LineItemsArg) : Except String (List RawLineItem) :=
  match (do
      let items ← preprocessLineItems parse arg
      validateLineItems 0 items
      pure items) with
  | Except.ok items => Except.ok items
  | Except.error m => Except.error ("Failed to create order: " ++ m)

/-- A concrete stand-in for `JSON.parse`, used to instantiate the
parse-parameterised theorems at evaluable inputs. -/
def parseStub (s : String) : Except String ParsedJson :=
  if s = "\x7bvariantId:9,quantity:2\x7d" then
    Except.ok (ParsedJson.single (RawLineItem.mk (some "9") (some 2)))
  else if s = "[\x7bvariantId:9,quantity:2\x7d]" then
    Except.ok (ParsedJson.arr [RawLineItem.mk (some "9") (some 2)])
  else
    Except.error "Unexpected token o in JSON at position 1"

/-- The adjust-inventory argument record (after zod typing). -/
structure AdjustInventoryArgs where
  inventoryItemId : String
  locationId : String
  availableDelta : Int
  reason : Option String
deriving Repr, DecidableEq

/-- The refactored `AdjustInventoryInputSchema`
(`src/tools/inventory/adjust-inventory.ts` lines 7-12, also the
schema registered for `adjust-inventory` in `index-updated.ts`):
`z.string()` with no minimum-length refinement on either id, so
every typed argument record passes. -/
def validateAdjustInventoryRefactored (a : AdjustInventoryArgs) :
    Except String AdjustInventoryArgs :=
  Except.ok a

/-- The `adjust-inventory` registration schema in the original
`index.ts` (lines 743-757): `z.string().min(1, ...)` on both ids
(the first failing refinement is reported). -/
def validateAdjustInventoryIndex (a : AdjustInventoryArgs) :
    Except String AdjustInventoryArgs :=
  if a.inventoryItemId.length < 1 then
    Except.error "Inventory item ID is required"
  else if a.locationId.length < 1 then
    Except.error "Location ID is required"
  else Except.ok a

theorem toList_append (a b : String) : (a ++ b).toList = a.toList ++ b.toList := by
  cases a
  cases b
  rfl

theorem str_append_assoc (a b c : String) : (a ++ b) ++ c = a ++ (b ++ c) := by
  apply String.ext
  simp [String.data_append, List.append_assoc]

theorem jsStartsWith_gid_append (r : String) :
    jsStartsWith ("gid://" ++ r) "gid://" = true := by
  unfold jsStartsWith
  rw [toList_append, List.isPrefixOf_iff_prefix]
  exact List.prefix_append _ _

theorem jsStartsWith_qualified (t x : String) :
    jsStartsWith ("gid://shopify/" ++ t ++ "/" ++ x) "gid://" = true := by
  have h : "gid://shopify/" ++ t ++ "/" ++ x =
      "gid://" ++ ("shopify/" ++ t ++ "/" ++ x) := by
    rw [str_append_assoc, str_append_assoc, str_append_assoc]
    rfl
  rw [h]
  exact jsStartsWith_gid_append _

/-- C6: for every resource type `T` and identifier `X`,
`formatGid T (formatGid T X) = formatGid T X` (the identifier
formatter is idempotent); an already-qualified id (one starting with
`gid://`) is returned unchanged, and a bare token `X` becomes
`gid://shopify/T/X`. -/
theorem formatGid_idempotent (T X : String) :
    formatGid T (formatGid T X) = formatGid T X ∧
    (jsStartsWith X "gid://" = true → formatGid T X = X) ∧
    (jsStartsWith X "gid://" = false →
      formatGid T X = "gid://shopify/" ++ T ++ "/" ++ X) := by
  refine ⟨?_, ?_, ?_⟩
  · cases h : jsStartsWith X "gid://" with
    | true => simp [formatGid, h]
    | false => simp [formatGid, h, jsStartsWith_qualified]
  · intro h
    simp [formatGid, h]
  · intro h
    simp [formatGid, h]

/-- Witness for C6 at concrete inputs: a doubly formatted bare token,
an already-qualified id, and a bare token. -/
theorem formatGid_idempotent_witness :
    formatGid "Product" (formatGid "Product" "123") = formatGid "Product" "123" ∧
    formatGid "Product" "gid://shopify/Product/9" = "gid://shopify/Product/9" ∧
    formatGid "Product" "123" = "gid://shopify/" ++ "Product" ++ "/" ++ "123" :=
  ⟨(formatGid_idempotent "Product" "123").1,
   (formatGid_idempotent "Product" "gid://shopify/Product/9").2.1 (by decide),
   (formatGid_idempotent "Product" "123").2.2 (by decide)⟩

/-- C10: for every resource type `T` and every string `s` that starts
with `gid://`, `formatGid T s = s` even when `s` encodes a different
resource type than `T`; in particular
`formatGid "Product" "gid://shopify/Customer/5"` is
`"gid://shopify/Customer/5"`, passed through unmodified. -/
theorem formatGid_ignores_type_for_qualified (T s : String)
    (h : jsStartsWith s "gid://" = true) :
    formatGid T s = s := by
  simp [formatGid, h]

/-- Witness for C10: a Customer gid handed to the Product formatter is
returned unchanged. -/
theorem formatGid_ignores_type_for_qualified_witness :
    formatGid "Product" "gid://shopify/Customer/5" = "gid://shopify/Customer/5" :=
  formatGid_ignores_type_for_qualified "Product" "gid://shopify/Customer/5" (by decide)

/-- C5 counterexample: the claim says unwrapping a connection with
absent `edges` (`{}`) returns the empty sequence and never fails; in
the code the callers hand the (undefined) `edges` field straight to
`mapEdgesToNodes`, whose `edges.map` throws a `TypeError`. -/
theorem unwrapConnection_absent_edges_counterexample :
    unwrapConnection (Connection.mk (none : Option (List (Edge Nat)))) ≠
      Except.ok ([] : List Nat) := by
  simp [unwrapConnection]

/-- C5 amended: for every list `X`, unwrapping
`{edges: X.map(n => ({node: n}))}` returns exactly `X` in order, and
`{edges: []}` unwraps to `[]`; but a connection with absent `edges`
is a `TypeError` failure (the `edges.map` call dereferences
`undefined`), not the empty sequence. -/
theorem unwrapConnection_roundtrip {α : Type} :
    (∀ X : List α,
      unwrapConnection (Connection.mk (some (X.map Edge.mk))) = Except.ok X) ∧
    unwrapConnection (Connection.mk (some ([] : List (Edge α)))) =
      Except.ok ([] : List α) ∧
    unwrapConnection (Connection.mk (none : Option (List (Edge α)))) =
      Except.error "TypeError: Cannot read properties of undefined (reading map)" := by
  refine ⟨?_, rfl, rfl⟩
  intro X
  show Except.ok (List.map (fun e => Edge.node e) (List.map Edge.mk X)) = Except.ok X
  rw [List.map_map]
  exact congrArg Except.ok (List.map_id X)

/-- C3 counterexample: for a user error whose `field` is the empty
string, `handleGraphQLErrors` renders just the message, not the
claim's `field: message` pair (which would read `": boom"`). -/
theorem handleGraphQLErrors_empty_field_counterexample :
    handleGraphQLErrors [UserError.mk "" "boom"] "create customer" =
      Except.error "Failed to create customer: boom" ∧
    handleGraphQLErrors [UserError.mk "" "boom"] "create customer" ≠
      Except.error ("Failed to " ++ "create customer" ++ ": " ++
        String.intercalate ", "
          ([UserError.mk "" "boom"].map (fun e => e.field ++ ": " ++ e.message))) := by
  constructor
  · rfl
  · intro h
    rw [show handleGraphQLErrors [UserError.mk "" "boom"] "create customer" =
        Except.error "Failed to create customer: boom" from rfl] at h
    injection h with h'
    exact absurd h' (by decide)

/-- C3 amended: for every non-empty error list in which each `field`
is non-empty, the failure message is `Failed to L: ` followed by the
`field: message` pairs joined by `", "` (an error with an empty
`field` contributes just its message); the empty list returns without
failing. -/
theorem handleGraphQLErrors_spec (errs : List UserError) (L : String) :
    (errs ≠ [] → (∀ e ∈ errs, e.field ≠ "") →
      handleGraphQLErrors errs L =
        Except.error ("Failed to " ++ L ++ ": " ++
          String.intercalate ", "
            (errs.map (fun e => e.field ++ ": " ++ e.message)))) ∧
    handleGraphQLErrors [] L = Except.ok () := by
  constructor
  · intro hne hfields
    have hlen : errs.length > 0 := List.length_pos.mpr hne
    have hmap : errs.map (fun e =>
        if e.field = "" then e.message else e.field ++ ": " ++ e.message) =
        errs.map (fun e => e.field ++ ": " ++ e.message) := by
      apply List.map_congr_left
      intro e he
      rw [if_neg (hfields e he)]
    unfold handleGraphQLErrors
    rw [if_pos hlen, hmap]
  · rfl

/-- Witness for C3's amended theorem at a concrete two-error list and
the empty list. -/
theorem handleGraphQLErrors_spec_witness :
    handleGraphQLErrors
        [UserError.mk "email" "taken", UserError.mk "phone" "bad"]
        "create customer" =
      Except.error ("Failed to " ++ "create customer" ++ ": " ++
        String.intercalate ", "
          ([UserError.mk "email" "taken", UserError.mk "phone" "bad"].map
            (fun e => e.field ++ ": " ++ e.message))) ∧
    handleGraphQLErrors [] "create customer" = Except.ok () :=
  ⟨(handleGraphQLErrors_spec
      [UserError.mk "email" "taken", UserError.mk "phone" "bad"]
      "create customer").1 (by decide) (by decide),
   (handleGraphQLErrors_spec [] "create customer").2⟩

/-- C2 counterexample: an error whose message contains `"variant"`,
caught inside `createOrder.execute` (`src/tools/createOrder.ts`), is
replaced by a fixed hint; the original message is not preserved
verbatim inside the wrapped failure. -/
theorem createOrderCatch_counterexample :
    createOrderCatch (JsError.error "no such variant") =
      "Failed to create order: Invalid product variant. Please check that all variant IDs are correct." ∧
    createOrderCatch (JsError.error "no such variant") ≠
      "Failed to create order: " ++ "no such variant" := by
  exact ⟨by decide, by decide⟩

/-- C2 amended: errors rethrown through the shared
`handleExecutionError` keep the uniform shape
`Failed to L: <original message>` with the message preserved
verbatim; the `createOrder` tool's own catch block preserves the
message only when it contains neither `"variant"` nor `"customer"`
(substituting fixed hints otherwise, and
`Unknown error occurred` for non-Error throwables). -/
theorem wrapExecutionError_spec (m L : String) :
    handleExecutionError (JsError.error m) L = "Failed to " ++ L ++ ": " ++ m ∧
    (jsIncludes m "variant" = false → jsIncludes m "customer" = false →
      createOrderCatch (JsError.error m) = "Failed to create order: " ++ m) := by
  constructor
  · rfl
  · intro hv hc
    simp [createOrderCatch, hv, hc]

/-- Witness for C2's amended theorem at a concrete message that
mentions neither `variant` nor `customer`. -/
theorem wrapExecutionError_spec_witness :
    handleExecutionError (JsError.error "boom") "adjust inventory" =
      "Failed to " ++ "adjust inventory" ++ ": " ++ "boom" ∧
    createOrderCatch (JsError.error "boom") =
      "Failed to create order: " ++ "boom" :=
  ⟨(wrapExecutionError_spec "boom" "adjust inventory").1,
   (wrapExecutionError_spec "boom" "adjust inventory").2 (by decide) (by decide)⟩

/-- C7: for the get-product-by-id tool, a transport payload
`product: null` makes execute fail with
`Failed to fetch product details: Product not found` — raised by the
explicit `if (!product)` check in `formatProductDetails` (the second
conjunct), with `"not found"` in the message and no `TypeError` from
a downstream null dereference. -/
theorem getProductById_null_payload_not_found :
    getProductByIdProcess (JSVal.obj [("product", JSVal.null)]) =
      Except.error "Failed to fetch product details: Product not found" ∧
    formatProductDetails JSVal.null = Except.error "Product not found" ∧
    jsIncludes "Failed to fetch product details: Product not found" "not found" = true ∧
    jsIncludes "Failed to fetch product details: Product not found" "TypeError" = false := by
  exact ⟨rfl, rfl, by decide, by decide⟩

theorem handleGraphQLErrors_nonempty (es : List UserError) (L : String)
    (h : es ≠ []) :
    handleGraphQLErrors es L = Except.error (aggregatedBusinessMessage es L) := by
  unfold handleGraphQLErrors aggregatedBusinessMessage
  rw [if_pos (List.length_pos.mpr h)]

/-- C1: for the embedded mutation tools (createCustomer,
adjustInventory), a transport response with a non-empty `userErrors`
list makes execute fail with the single aggregated business failure
(rewrapped once more by the catch-all), and the result does not
depend on the payload at all — the right-hand sides never mention the
payload, which may be `null`; conversely, a successful result is only
possible when `userErrors` is empty, so response shaping runs only
then. -/
theorem mutation_userErrors_short_circuit :
    (∀ (es : List UserError) (payload : JSVal), es ≠ [] →
      createCustomerProcess (CustomerCreateResponse.mk es payload) =
        Except.error (handleExecutionError
          (JsError.error (aggregatedBusinessMessage es "create customer"))
          "create customer")) ∧
    (∀ (es : List UserError) (payload : JSVal) (out : JSVal),
      createCustomerProcess (CustomerCreateResponse.mk es payload) = Except.ok out →
      es = []) ∧
    (∀ (es : List UserError) (level : Option InventoryLevelData), es ≠ [] →
      adjustInventoryProcess (AdjustInventoryResponse.mk es level) =
        Except.error (handleExecutionError
          (JsError.error (aggregatedBusinessMessage es "adjust inventory"))
          "adjust inventory")) ∧
    (∀ (es : List UserError) (level : Option InventoryLevelData) (out : JSVal),
      adjustInventoryProcess (AdjustInventoryResponse.mk es level) = Except.ok out →
      es = []) := by
  refine ⟨?_, ?_, ?_, ?_⟩
  · intro es payload h
    unfold createCustomerProcess
    rw [handleGraphQLErrors_nonempty es "create customer" h]
    rfl
  · intro es payload out h
    cases es with
    | nil => rfl
    | cons e rest =>
      exfalso
      unfold createCustomerProcess at h
      rw [handleGraphQLErrors_nonempty (e :: rest) "create customer" (by simp)] at h
      exact Except.noConfusion h
  · intro es level h
    unfold adjustInventoryProcess
    rw [handleGraphQLErrors_nonempty es "adjust inventory" h]
    rfl
  · intro es level out h
    cases es with
    | nil => rfl
    | cons e rest =>
      exfalso
      unfold adjustInventoryProcess at h
      rw [handleGraphQLErrors_nonempty (e :: rest) "adjust inventory" (by simp)] at h
      exact Except.noConfusion h

/-- Witness for C1: a concrete rejected createCustomer call with a
null payload, a concrete successful createCustomer call, a concrete
rejected adjustInventory call with a null level, and a concrete
successful adjustInventory call. -/
theorem mutation_userErrors_short_circuit_witness :
    createCustomerProcess (CustomerCreateResponse.mk
        [UserError.mk "email" "has already been taken"] JSVal.null) =
      Except.error (handleExecutionError
        (JsError.error (aggregatedBusinessMessage
          [UserError.mk "email" "has already been taken"] "create customer"))
        "create customer") ∧
    ([] : List UserError) = [] ∧
    adjustInventoryProcess (AdjustInventoryResponse.mk
        [UserError.mk "inventoryItemId" "not stocked at location"] none) =
      Except.error (handleExecutionError
        (JsError.error (aggregatedBusinessMessage
          [UserError.mk "inventoryItemId" "not stocked at location"] "adjust inventory"))
        "adjust inventory") ∧
    ([] : List UserError) = [] :=
  ⟨mutation_userErrors_short_circuit.1
      [UserError.mk "email" "has already been taken"] JSVal.null (by decide),
   mutation_userErrors_short_circuit.2.1 [] (JSVal.obj [])
      (JSVal.obj [("customer", JSVal.obj
        [("id", JSVal.undef), ("displayName", JSVal.undef), ("email", JSVal.undef),
         ("firstName", JSVal.undef), ("lastName", JSVal.undef), ("phone", JSVal.undef),
         ("acceptsMarketing", JSVal.undef), ("state", JSVal.undef),
         ("numberOfOrders", JSVal.undef), ("createdAt", JSVal.undef),
         ("updatedAt", JSVal.undef), ("defaultAddress", JSVal.undef),
         ("addresses", JSVal.arr []), ("metafields", JSVal.arr [])])]) rfl,
   mutation_userErrors_short_circuit.2.2.1
      [UserError.mk "inventoryItemId" "not stocked at location"] none (by decide),
   mutation_userErrors_short_circuit.2.2.2 []
      (some (InventoryLevelData.mk (JSVal.str "gid://shopify/InventoryLevel/1")
        [QuantityEntry.mk "available" 5]
        (InventoryItemData.mk (JSVal.str "gid://shopify/InventoryItem/1")
          (JSVal.str "SKU1") (JSVal.bool true))
        (LocationData.mk (JSVal.str "gid://shopify/Location/2") (JSVal.str "Main"))))
      (JSVal.obj [("inventoryLevel", JSVal.obj
        [("id", JSVal.str "gid://shopify/InventoryLevel/1"),
         ("available", JSVal.num 5),
         ("item", JSVal.obj [("id", JSVal.str "gid://shopify/InventoryItem/1"),
            ("sku", JSVal.str "SKU1"), ("tracked", JSVal.bool true)]),
         ("location", JSVal.obj [("id", JSVal.str "gid://shopify/Location/2"),
            ("name", JSVal.str "Main")])])]) rfl⟩

theorem lookup_cons_ne (k kx : String) (v : JSVal) (rest : List (String × JSVal))
    (h : (k == kx) = false) :
    List.lookup k ((kx, v) :: rest) = List.lookup k rest := by
  simp [List.lookup, h]

theorem strEntryWith_none (k : String) (enc : String → JSVal) :
    strEntryWith k enc none = [] := rfl

theorem definedEntry_none {α : Type} (k : String) (enc : α → JSVal) :
    definedEntry k enc none = [] := rfl

theorem lookup_strEntryWith_ne (k kx : String) (enc : String → JSVal)
    (o : Option String) (rest : List (String × JSVal)) (h : (k == kx) = false) :
    List.lookup k (strEntryWith kx enc o ++ rest) = List.lookup k rest := by
  cases o with
  | none => rfl
  | some s =>
    by_cases hs : s = ""
    · simp [strEntryWith, hs]
    · simp [strEntryWith, hs, List.lookup, h]

theorem lookup_strEntryWith_none (k kx : String) (enc : String → JSVal)
    (rest : List (String × JSVal)) :
    List.lookup k (strEntryWith kx enc none ++ rest) = List.lookup k rest := rfl

theorem lookup_definedEntry_ne {α : Type} (k kx : String) (enc : α → JSVal)
    (o : Option α) (rest : List (String × JSVal)) (h : (k == kx) = false) :
    List.lookup k (definedEntry kx enc o ++ rest) = List.lookup k rest := by
  cases o with
  | none => rfl
  | some x => exact lookup_cons_ne k kx (enc x) rest h

theorem lookup_definedEntry_none {α : Type} (k kx : String) (enc : α → JSVal)
    (rest : List (String × JSVal)) :
    List.lookup k (definedEntry kx enc none ++ rest) = List.lookup k rest := rfl

theorem lookup_definedEntry_ne_last {α : Type} (k kx : String) (enc : α → JSVal)
    (o : Option α) (h : (k == kx) = false) :
    List.lookup k (definedEntry kx enc o) = none := by
  cases o with
  | none => rfl
  | some x => simp [definedEntry, List.lookup, h]

/-- C4: for the embedded create/update builders (createCustomer's
`customerInput`, create-order's `formatOrderInput`), omitting an
optional input field leaves the outbound mutation variables with no
key for that field at all; the one unconditional optional read —
`customAttributes` inside each line item — is bound to `undefined`
in memory and dropped entirely by the transport's JSON
serialisation, so it too never reaches the wire, and never as
`null`. -/
theorem mutation_variables_omit_absent_optionals :
    (∀ inp : CreateCustomerInput,
      (inp.firstName = none →
        List.lookup "firstName" (buildCustomerInput inp) = none) ∧
      (inp.lastName = none →
        List.lookup "lastName" (buildCustomerInput inp) = none) ∧
      (inp.phone = none →
        List.lookup "phone" (buildCustomerInput inp) = none) ∧
      (inp.acceptsMarketing = none →
        List.lookup "acceptsMarketing" (buildCustomerInput inp) = none) ∧
      (inp.addresses = none →
        List.lookup "addresses" (buildCustomerInput inp) = none) ∧
      (inp.metafields = none →
        List.lookup "metafields" (buildCustomerInput inp) = none) ∧
      (inp.tags = none →
        List.lookup "tags" (buildCustomerInput inp) = none)) ∧
    (∀ inp : CreateOrderInput,
      (inp.customerId = none →
        List.lookup "customerId" (formatOrderInput inp) = none) ∧
      (inp.email = none →
        List.lookup "email" (formatOrderInput inp) = none) ∧
      (inp.phone = none →
        List.lookup "phone" (formatOrderInput inp) = none) ∧
      (inp.note = none →
        List.lookup "note" (formatOrderInput inp) = none) ∧
      (inp.tags = none →
        List.lookup "tags" (formatOrderInput inp) = none) ∧
      (inp.shippingAddress = none →
        List.lookup "shippingAddress" (formatOrderInput inp) = none) ∧
      (inp.billingAddress = none →
        List.lookup "billingAddress" (formatOrderInput inp) = none) ∧
      (inp.shippingLine = none →
        List.lookup "shippingLine" (formatOrderInput inp) = none) ∧
      (inp.financialStatus = none →
        List.lookup "financialStatus" (formatOrderInput inp) = none) ∧
      (inp.fulfillmentStatus = none →
        List.lookup "fulfillmentStatus" (formatOrderInput inp) = none) ∧
      (inp.metafields = none →
        List.lookup "metafields" (formatOrderInput inp) = none)) ∧
    (∀ item : OrderLineItemInput, item.customAttributes = none →
      List.lookup "customAttributes" (lineItemFields item) = some JSVal.undef ∧
      List.lookup "customAttributes" (stripFields (lineItemFields item)) = none) := by
  refine ⟨?_, ?_, ?_⟩
  · intro inp
    refine ⟨?_, ?_, ?_, ?_, ?_, ?_, ?_⟩ <;> intro h <;>
      simp [buildCustomerInput, strEntry, h, lookup_cons_ne,
        lookup_strEntryWith_ne, lookup_strEntryWith_none,
        lookup_definedEntry_ne, lookup_definedEntry_none,
        lookup_definedEntry_ne_last, strEntryWith_none, definedEntry_none]
  · intro inp
    refine ⟨?_, ?_, ?_, ?_, ?_, ?_, ?_, ?_, ?_, ?_, ?_⟩ <;> intro h <;>
      simp [formatOrderInput, strEntry, h, lookup_cons_ne,
        lookup_strEntryWith_ne, lookup_strEntryWith_none,
        lookup_definedEntry_ne, lookup_definedEntry_none,
        lookup_definedEntry_ne_last, strEntryWith_none, definedEntry_none]
  · intro item h
    constructor
    · simp [lineItemFields, h, List.lookup]
    · simp [lineItemFields, h, stripFields, stripUndef, isUndef, List.lookup]

/-- Witness for C4 at fully concrete inputs in which every optional
field is omitted. -/
theorem mutation_variables_omit_absent_optionals_witness :
    List.lookup "firstName" (buildCustomerInput
      (CreateCustomerInput.mk "a@b.co" none none none none none none none)) = none ∧
    List.lookup "tags" (buildCustomerInput
      (CreateCustomerInput.mk "a@b.co" none none none none none none none)) = none ∧
    List.lookup "customerId" (formatOrderInput
      (CreateOrderInput.mk none none none none none
        [OrderLineItemInput.mk "9" 2 none none]
        none none none none none false false none)) = none ∧
    List.lookup "metafields" (formatOrderInput
      (CreateOrderInput.mk none none none none none
        [OrderLineItemInput.mk "9" 2 none none]
        none none none none none false false none)) = none ∧
    List.lookup "customAttributes"
      (stripFields (lineItemFields (OrderLineItemInput.mk "9" 2 none none))) = none :=
  ⟨(mutation_variables_omit_absent_optionals.1
      (CreateCustomerInput.mk "a@b.co" none none none none none none none)).1 rfl,
   (mutation_variables_omit_absent_optionals.1
      (CreateCustomerInput.mk "a@b.co" none none none none none none none)).2.2.2.2.2.2 rfl,
   (mutation_variables_omit_absent_optionals.2.1
      (CreateOrderInput.mk none none none none none
        [OrderLineItemInput.mk "9" 2 none none]
        none none none none none false false none)).1 rfl,
   (mutation_variables_omit_absent_optionals.2.1
      (CreateOrderInput.mk none none none none none
        [OrderLineItemInput.mk "9" 2 none none]
        none none none none none false false none)).2.2.2.2.2.2.2.2.2.2 rfl,
   (mutation_variables_omit_absent_optionals.2.2
      (OrderLineItemInput.mk "9" 2 none none) rfl).2⟩

/-- C8: in the create-order entry point, a line-items string is
deserialised before per-item validation — the phase behaves exactly
as if the parsed value had been passed directly, with a single
non-array parse result wrapped into a one-element array — and a
non-JSON string fails with the fixed
`Invalid lineItems format` validation message (wrapped by the
handler's catch), never with the raw parse exception text. -/
theorem createOrder_lineItems_string_handling
    (parse : String → Except String ParsedJson) (s : String) :
    (∀ it, parse s = Except.ok (ParsedJson.single it) →
      runLineItemsPhase parse (LineItemsArg.str s) =
        runLineItemsPhase parse (LineItemsArg.arr [it])) ∧
    (∀ items, parse s = Except.ok (ParsedJson.arr items) →
      runLineItemsPhase parse (LineItemsArg.str s) =
        runLineItemsPhase parse (LineItemsArg.arr items)) ∧
    (∀ emsg, parse s = Except.error emsg →
      runLineItemsPhase parse (LineItemsArg.str s) =
        Except.error
          "Failed to create order: Invalid lineItems format. Expected a valid JSON array.") := by
  refine ⟨?_, ?_, ?_⟩
  · intro x h
    simp [runLineItemsPhase, preprocessLineItems, h]
  · intro x h
    simp [runLineItemsPhase, preprocessLineItems, h]
  · intro x h
    simp only [runLineItemsPhase, preprocessLineItems, h]
    rfl

/-- Witness for C8 with a concrete parse function: a single-object
string, an array string, and a non-JSON string. -/
theorem createOrder_lineItems_string_handling_witness :
    runLineItemsPhase parseStub
        (LineItemsArg.str "\x7bvariantId:9,quantity:2\x7d") =
      runLineItemsPhase parseStub
        (LineItemsArg.arr [RawLineItem.mk (some "9") (some 2)]) ∧
    runLineItemsPhase parseStub
        (LineItemsArg.str "[\x7bvariantId:9,quantity:2\x7d]") =
      runLineItemsPhase parseStub
        (LineItemsArg.arr [RawLineItem.mk (some "9") (some 2)]) ∧
    runLineItemsPhase parseStub (LineItemsArg.str "not json") =
      Except.error
        "Failed to create order: Invalid lineItems format. Expected a valid JSON array." :=
  ⟨(createOrder_lineItems_string_handling parseStub
      "\x7bvariantId:9,quantity:2\x7d").1
      (RawLineItem.mk (some "9") (some 2)) rfl,
   (createOrder_lineItems_string_handling parseStub
      "[\x7bvariantId:9,quantity:2\x7d]").2.1
      [RawLineItem.mk (some "9") (some 2)] rfl,
   (createOrder_lineItems_string_handling parseStub "not json").2.2
      "Unexpected token o in JSON at position 1" rfl⟩

/-- C9 (code-bug evidence): the refactored adjust-inventory schema
accepts an empty `inventoryItemId` (`z.string()` with no `.min(1)`),
and `formatGid` then silently qualifies the empty id into
`gid://shopify/InventoryItem/` for the network call; the original
`index.ts` registration schema rejects the same input with the
validation failure `Inventory item ID is required`, which is the
behaviour the claim (and the rest of the repository) intends. -/
theorem adjustInventory_empty_id_not_rejected :
    validateAdjustInventoryRefactored (AdjustInventoryArgs.mk "" "2" (-3) none) =
      Except.ok (AdjustInventoryArgs.mk "" "2" (-3) none) ∧
    formatGid "InventoryItem" "" = "gid://shopify/InventoryItem/" ∧
    jsStartsWith (formatGid "InventoryItem" "") "gid://" = true ∧
    validateAdjustInventoryIndex (AdjustInventoryArgs.mk "" "2" (-3) none) =
      Except.error "Inventory item ID is required" := by
  refine ⟨rfl, by decide, by decide, rfl⟩

end Shopify
